import Mathlib

/-!
Shallow embedding of `scripts/test-tenant-flow.py` (Traction tenant onboarding
flow test).  The script drives six HTTP steps against an external service;
here every network interaction is abstracted by an `Outcome` value supplied by
the environment, and every step is a pure function from the tester state and
its outcomes to a `StepRes` recording the boolean success signal, the updated
state, and the list of HTTP requests the step issued.  JSON bodies are
modelled by `JsonVal` (null / string / object), enough for every field the
script inspects; Python truthiness on these values is `JsonVal.truthy`.
Logging is not modelled: it never influences a return value.
-/

mutual

/-- JSON values, restricted to the shapes the script inspects:
`null`, strings and objects (Python dicts). -/
inductive JsonVal where
  | null : JsonVal
  | str : String → JsonVal
  | obj : JsonFields → JsonVal
deriving DecidableEq

/-- Field list of a JSON object, in insertion order. -/
inductive JsonFields where
  | nil : JsonFields
  | cons : String → JsonVal → JsonFields → JsonFields
deriving DecidableEq

end

/-- `d.get(k)` on a field list: first matching key, `none` when absent. -/
def JsonFields.get : JsonFields → String → Option JsonVal
  | .nil, _ => none
  | .cons k v rest, key => if k = key then some v else rest.get key

/-- Whether a field list is empty (Python dict truthiness). -/
def JsonFields.isEmpty : JsonFields → Bool
  | .nil => true
  | .cons _ _ _ => false

namespace JsonVal

/-- Python truthiness: `None` and empty strings/dicts are falsy. -/
def truthy : JsonVal → Bool
  | .null => false
  | .str s => s != ""
  | .obj l => !l.isEmpty

/-- `d.get(k)` on a Python dict: `none` models Python `None`
(key absent, or receiver not a dict). -/
def get : JsonVal → String → Option JsonVal
  | .obj fields, k => fields.get k
  | _, _ => none

/-- `d.get(k, default)`. -/
def getD (v : JsonVal) (k : String) (d : JsonVal) : JsonVal :=
  (v.get k).getD d

/-- Rendering of a value interpolated into an f-string URL.  Only the
string case is ever observed by a theorem. -/
def pyStr : JsonVal → String
  | .null => "None"
  | .str s => s
  | .obj _ => "<dict>"

end JsonVal

/-- Truthiness of a `dict.get` result (`None` is falsy). -/
def optTruthy : Option JsonVal → Bool
  | none => false
  | some v => v.truthy

/-- Python `a or b` on `dict.get` results. -/
def pyOr (a b : Option JsonVal) : Option JsonVal :=
  if optTruthy a then a else b

/-- Rendering of a possibly-`None` value in an f-string. -/
def optPyStr : Option JsonVal → String
  | none => "None"
  | some v => v.pyStr

/-- `base_url.rstrip('/')`. -/
def rstripSlash (s : String) : String :=
  String.mk ((s.toList.reverse.dropWhile (fun c => c = '/')).reverse)

/-- The mutable session state of the `TractionTester` instance
(`__init__`, lines 28-35 of the script). -/
structure TractionTester where
  base_url : String
  debug : Bool
  tenant_token : Option JsonVal
  reservation_id : Option JsonVal
  reservation_pwd : Option JsonVal
  created_did : Option JsonVal
deriving DecidableEq

/-- `TractionTester.__init__`: strips trailing slashes from the base URL and
leaves every other field unset. -/
def TractionTester.init (base_url : String) (debug : Bool) : TractionTester :=
  ⟨rstripSlash base_url, debug, none, none, none, none⟩

/-- Result of one `make_request` call, as the step observes it: either the
request raised (`exn`), or a response with a status code and a body
(`none` body models a `response.json()` call that raises). -/
inductive Outcome where
  | exn : Outcome
  | resp : Nat → Option JsonVal → Outcome
deriving DecidableEq

/-- An HTTP request issued by a step (one `make_request` call). -/
structure Request where
  method : String
  endpoint : String
  payload : Option JsonVal
deriving DecidableEq

/-- What a step returns: its boolean success signal, the updated session
state, and the requests it issued, in order. -/
structure StepRes where
  ok : Bool
  st : TractionTester
  reqs : List Request
deriving DecidableEq

/-- `step_1_create_public_reservation` (lines 90-116).  POSTs a reservation
request; on HTTP 200 stores `reservation_id` and `reservation_pwd` from the
body (via `dict.get`, so possibly `None`) and returns `True`; any other
status, or an exception (including a body that fails to parse), returns
`False`. -/
def step_1_create_public_reservation (st : TractionTester) (now : Nat)
    (o : Outcome) : StepRes :=
  let payload : JsonVal :=
    .obj (.cons "tenant_name" (.str ("test-tenant-" ++ toString now))
         (.cons "contact_email" (.str "test@example.com") .nil))
  let reqs := [Request.mk "POST" "/multitenancy/reservations" (some payload)]
  match o with
  | .exn => ⟨false, st, reqs⟩
  | .resp status body =>
    if status = 200 then
      match body with
      | none => ⟨false, st, reqs⟩
      | some data =>
        ⟨true,
         { st with reservation_id := data.get "reservation_id",
                   reservation_pwd := data.get "reservation_pwd" },
         reqs⟩
    else ⟨false, st, reqs⟩

/-- `step_2_tenant_checkin` (lines 118-150).  Fails fast (no request) when
`self.reservation_id` is falsy; otherwise POSTs the stored password; on
HTTP 200 stores `data.get('token')` and succeeds iff that token is truthy. -/
def step_2_tenant_checkin (st : TractionTester) (o : Outcome) : StepRes :=
  if !optTruthy st.reservation_id then
    ⟨false, st, []⟩
  else
    let payload : JsonVal :=
      .obj (.cons "reservation_pwd" ((st.reservation_pwd).getD .null) .nil)
    let endpoint :=
      "/multitenancy/reservations/" ++ optPyStr st.reservation_id ++ "/check-in"
    let reqs := [Request.mk "POST" endpoint (some payload)]
    match o with
    | .exn => ⟨false, st, reqs⟩
    | .resp status body =>
      if status = 200 then
        match body with
        | none => ⟨false, st, reqs⟩
        | some data =>
          let tok := data.get "token"
          let st' := { st with tenant_token := tok }
          if optTruthy tok then ⟨true, st', reqs⟩ else ⟨false, st', reqs⟩
      else ⟨false, st, reqs⟩

/-- The cheqd plugin configuration extracted from the server config body
(lines 180-181): `server_config.get('config', {}).get('plugin_config', {})
.get('cheqd', {})`. -/
def cheqdConfig (server_config : JsonVal) : JsonVal :=
  ((server_config.getD "config" (.obj .nil)).getD "plugin_config"
    (.obj .nil)).getD "cheqd" (.obj .nil)

/-- `step_3_validate_configuration` (lines 152-208).  Two requests: the
tenant config fetch, whose non-200 status, exception or unparseable body is a
hard failure, and the server config fetch, whose result (including a missing
cheqd plugin configuration, which only affects log output) never makes the
step fail.  No state field is updated. -/
def step_3_validate_configuration (st : TractionTester)
    (oTenant oServer : Outcome) : StepRes :=
  let tenantReq := Request.mk "GET" "/tenant/config" none
  match oTenant with
  | .exn => ⟨false, st, [tenantReq]⟩
  | .resp status1 body1 =>
    if status1 = 200 then
      match body1 with
      | none => ⟨false, st, [tenantReq]⟩
      | some _ =>
        let reqs := [tenantReq, Request.mk "GET" "/status/config" none]
        match oServer with
        | .exn => ⟨true, st, reqs⟩
        | .resp status2 body2 =>
          if status2 = 200 then
            match body2 with
            | none => ⟨true, st, reqs⟩
            | some _ => ⟨true, st, reqs⟩
          else ⟨true, st, reqs⟩
    else ⟨false, st, [tenantReq]⟩

/-- First payload variant of step 4 (lines 216-221). -/
def didPayload1 : JsonVal :=
  .obj (.cons "options"
    (.obj (.cons "network" (.str "xanadu")
          (.cons "key_type" (.str "ed25519") .nil))) .nil)

/-- Second payload variant of step 4 (lines 222-228). -/
def didPayload2 : JsonVal :=
  .obj (.cons "options"
    (.obj (.cons "network" (.str "xanadu")
          (.cons "key_type" (.str "ed25519")
          (.cons "method_specific_id_algo" (.str "uuid") .nil)))) .nil)

/-- Third payload variant of step 4 (lines 229-235). -/
def didPayload3 : JsonVal :=
  .obj (.cons "options"
    (.obj (.cons "network" (.str "xanadu")
          (.cons "key_type" (.str "ed25519") .nil)))
    (.cons "features" (.obj .nil) .nil))

/-- `payloads_to_test` (lines 215-236), in declared order. -/
def payloads_to_test : List JsonVal := [didPayload1, didPayload2, didPayload3]

/-- DID extraction from a 200 response body (line 247):
`data.get('did') or data.get('result', {}).get('did')`. -/
def extractDid (data : JsonVal) : Option JsonVal :=
  pyOr (data.get "did") ((data.getD "result" (.obj .nil)).get "did")

/-- One iteration of step 4's payload loop (lines 241-268): `some did` when
the variant's response has status 200, a parseable body and a truthy
extracted DID; `none` otherwise (non-200 status, exception anywhere in the
attempt, or no truthy DID), after which the loop moves on. -/
def step_4_attempt (o : Outcome) : Option JsonVal :=
  match o with
  | .exn => none
  | .resp status body =>
    if status = 200 then
      match body with
      | none => none
      | some data =>
        let did := extractDid data
        if optTruthy did then did else none
    else none

/-- The request a step-4 variant issues (line 242). -/
def didCreateReq (payload : JsonVal) : Request :=
  Request.mk "POST" "/did/cheqd/create" (some payload)

/-- The `for` loop of step 4 over the remaining (payload, outcome) pairs:
stores the DID and stops on the first successful attempt, otherwise
falls through to `return False` after the loop (lines 238-271). -/
def step_4_loop (st : TractionTester) :
    List (JsonVal × Outcome) → StepRes
  | [] => ⟨false, st, []⟩
  | (p, o) :: rest =>
    match step_4_attempt o with
    | some did => ⟨true, { st with created_did := some did }, [didCreateReq p]⟩
    | none =>
      let r := step_4_loop st rest
      ⟨r.ok, r.st, didCreateReq p :: r.reqs⟩

/-- `step_4_create_cheqd_did` (lines 210-271): tries the three payload
variants of `payloads_to_test` in order against `/did/cheqd/create`. -/
def step_4_create_cheqd_did (st : TractionTester)
    (o1 o2 o3 : Outcome) : StepRes :=
  step_4_loop st (payloads_to_test.zip [o1, o2, o3])

/-- `step_5_assign_public_did` (lines 273-309).  Fails fast (no request) when
`self.created_did` is falsy; otherwise POSTs the assignment; on a 200 write
it re-reads `/wallet/did/public` and succeeds iff the read is a parseable 200
whose `result.did` equals the stored `created_did`. -/
def step_5_assign_public_did (st : TractionTester)
    (oWrite oRead : Outcome) : StepRes :=
  if !optTruthy st.created_did then
    ⟨false, st, []⟩
  else
    let writeReq := Request.mk "POST"
      ("/wallet/did/public?did=" ++ optPyStr st.created_did)
      (some (.obj .nil))
    match oWrite with
    | .exn => ⟨false, st, [writeReq]⟩
    | .resp statusW _ =>
      if statusW = 200 then
        let reqs := [writeReq, Request.mk "GET" "/wallet/did/public" none]
        match oRead with
        | .exn => ⟨false, st, reqs⟩
        | .resp statusR bodyR =>
          if statusR = 200 then
            match bodyR with
            | none => ⟨false, st, reqs⟩
            | some data =>
              let assigned := (data.getD "result" (.obj .nil)).get "did"
              if assigned = st.created_did then ⟨true, st, reqs⟩
              else ⟨false, st, reqs⟩
          else ⟨false, st, reqs⟩
      else ⟨false, st, [writeReq]⟩

/-- `step_6_validate_issuer_status` (lines 311-332).  Succeeds iff the
public-DID read is a parseable 200 whose `result` field is truthy.  Issues
its request regardless of any state field. -/
def step_6_validate_issuer_status (st : TractionTester) (o : Outcome) :
    StepRes :=
  let reqs := [Request.mk "GET" "/wallet/did/public" none]
  match o with
  | .exn => ⟨false, st, reqs⟩
  | .resp status body =>
    if status = 200 then
      match body with
      | none => ⟨false, st, reqs⟩
      | some data =>
        if optTruthy (data.get "result") then ⟨true, st, reqs⟩
        else ⟨false, st, reqs⟩
    else ⟨false, st, reqs⟩

/-- The environment of one full run: the outcome of each `make_request` call
a step could issue, in the order the script would issue them. -/
structure Env where
  o1 : Outcome
  o2 : Outcome
  o3a : Outcome
  o3b : Outcome
  o4a : Outcome
  o4b : Outcome
  o4c : Outcome
  o5w : Outcome
  o5r : Outcome
  o6 : Outcome
deriving DecidableEq

/-- The ordered `steps` list of `run_full_test` (lines 340-347): step names
paired with the step functions, each closed over its outcomes. -/
def steps (env : Env) (now : Nat) :
    List (String × (TractionTester → StepRes)) :=
  [("Create Public Reservation",
      fun st => step_1_create_public_reservation st now env.o1),
   ("Tenant Check-In", fun st => step_2_tenant_checkin st env.o2),
   ("Validate Configuration",
      fun st => step_3_validate_configuration st env.o3a env.o3b),
   ("Create cheqd DID",
      fun st => step_4_create_cheqd_did st env.o4a env.o4b env.o4c),
   ("Assign Public DID",
      fun st => step_5_assign_public_did st env.o5w env.o5r),
   ("Validate Issuer Status",
      fun st => step_6_validate_issuer_status st env.o6)]

/-- The six step names in execution order. -/
def stepNames : List String :=
  ["Create Public Reservation", "Tenant Check-In", "Validate Configuration",
   "Create cheqd DID", "Assign Public DID", "Validate Issuer Status"]

/-- Output of the step loop: the `results` record (one entry per executed
step, in order), the final session state, and all requests issued. -/
structure LoopOut where
  results : List (String × Bool)
  final : TractionTester
  reqs : List Request

/-- The step loop of `run_full_test` (lines 349-360): run each step in turn,
record its outcome in `results`, and `break` on the first failure. -/
def runLoop (st : TractionTester) :
    List (String × (TractionTester → StepRes)) → LoopOut
  | [] => ⟨[], st, []⟩
  | (name, f) :: rest =>
    let r := f st
    if r.ok then
      let o := runLoop r.st rest
      ⟨(name, true) :: o.results, o.final, r.reqs ++ o.reqs⟩
    else
      ⟨[(name, false)], r.st, r.reqs⟩

/-- Result of `run_full_test`: `all_passed` (its return value), the
`results` record, the final state and the request trace. -/
structure RunResult where
  all_passed : Bool
  results : List (String × Bool)
  final : TractionTester
  reqs : List Request

/-- `TractionTester.run_full_test` (lines 334-379): run the six steps from a
fresh state, short-circuiting on the first failure; `all_passed` is the
conjunction over the recorded results (lines 366-371). -/
def run_full_test (base_url : String) (debug : Bool) (now : Nat)
    (env : Env) : RunResult :=
  let out := runLoop (TractionTester.init base_url debug) (steps env now)
  ⟨out.results.all (fun p => p.2), out.results, out.final, out.reqs⟩

/-- The final summary lines (lines 367-369): one `"name: PASS/FAIL"` line per
entry of the `results` record. -/
def summaryLines (results : List (String × Bool)) : List String :=
  results.map (fun p => p.1 ++ ": " ++ (if p.2 then "PASS" else "FAIL"))

/-- `main` (lines 382-396): exit code 0 when `run_full_test` returns `True`,
1 otherwise. -/
def main_exit (base_url : String) (debug : Bool) (now : Nat)
    (env : Env) : Nat :=
  if (run_full_test base_url debug now env).all_passed then 0 else 1

/-- A response body carrying a reservation id and password. -/
def reservationBody : JsonVal :=
  .obj (.cons "reservation_id" (.str "res-1")
       (.cons "reservation_pwd" (.str "pwd-1") .nil))

/-- A response body carrying a session token. -/
def tokenBody : JsonVal :=
  .obj (.cons "token" (.str "jwt-abc") .nil)

/-- A DID-creation response body with the identifier at top level. -/
def didBody : JsonVal :=
  .obj (.cons "did" (.str "did:cheqd:testnet:xyz") .nil)

/-- A public-DID read body whose `result.did` is the created identifier. -/
def publicDidBody : JsonVal :=
  .obj (.cons "result"
    (.obj (.cons "did" (.str "did:cheqd:testnet:xyz") .nil)) .nil)

/-- A public-DID read body whose `result.did` is a different identifier. -/
def otherDidBody : JsonVal :=
  .obj (.cons "result"
    (.obj (.cons "did" (.str "did:cheqd:testnet:other") .nil)) .nil)

/-- An environment in which every endpoint answers 200 with a well-formed,
consistent body: the fully successful run. -/
def envGood : Env :=
  ⟨.resp 200 (some reservationBody), .resp 200 (some tokenBody),
   .resp 200 (some (.obj .nil)), .resp 200 (some (.obj .nil)),
   .resp 200 (some didBody), .exn, .exn,
   .resp 200 (some (.obj .nil)), .resp 200 (some publicDidBody),
   .resp 200 (some publicDidBody)⟩

/-- An environment in which every request raises. -/
def envAllExn : Env :=
  ⟨.exn, .exn, .exn, .exn, .exn, .exn, .exn, .exn, .exn, .exn⟩

/-- The session state after a successful step 1. -/
def stAfterStep1 : TractionTester :=
  { TractionTester.init "http://localhost:8032" false with
      reservation_id := some (.str "res-1"),
      reservation_pwd := some (.str "pwd-1") }

/-- A session state holding a created DID (after a successful step 4). -/
def stWithDid : TractionTester :=
  { TractionTester.init "http://localhost:8032" false with
      tenant_token := some (.str "jwt-abc"),
      created_did := some (.str "did:cheqd:testnet:xyz") }

theorem runLoop_length_le (st : TractionTester)
    (l : List (String × (TractionTester → StepRes))) :
    (runLoop st l).results.length ≤ l.length := by
  induction l generalizing st with
  | nil => simp [runLoop]
  | cons hd tl ih =>
    obtain ⟨name, f⟩ := hd
    simp only [runLoop]
    by_cases h : (f st).ok <;> simp [h, List.length_cons]
    · exact ih _

theorem runLoop_all_length (st : TractionTester)
    (l : List (String × (TractionTester → StepRes)))
    (h : (runLoop st l).results.all (fun p => p.2) = true) :
    (runLoop st l).results.length = l.length := by
  induction l generalizing st with
  | nil => simp [runLoop]
  | cons hd tl ih =>
    obtain ⟨name, f⟩ := hd
    by_cases hok : (f st).ok
    · simp only [runLoop, hok, if_true] at h ⊢
      simp only [List.all_cons, Bool.and_eq_true] at h
      simp [ih _ h.2]
    · simp only [runLoop, hok, if_false] at h
      simp at h

theorem runLoop_init_true (st : TractionTester)
    (l : List (String × (TractionTester → StepRes))) (i : Nat)
    (h : i + 1 < (runLoop st l).results.length) :
    ((runLoop st l).results.getD i ("", false)).2 = true := by
  induction l generalizing st i with
  | nil => simp [runLoop] at h
  | cons hd tl ih =>
    obtain ⟨name, f⟩ := hd
    by_cases hok : (f st).ok
    · simp only [runLoop, hok, if_true] at h ⊢
      cases i with
      | zero => simp
      | succ j =>
        simp only [List.getD_cons_succ]
        exact ih _ j (by simpa using h)
    · simp [runLoop, hok] at h

theorem runLoop_names (st : TractionTester)
    (l : List (String × (TractionTester → StepRes))) :
    (runLoop st l).results.map Prod.fst
      = (l.map Prod.fst).take (runLoop st l).results.length := by
  induction l generalizing st with
  | nil => simp [runLoop]
  | cons hd tl ih =>
    obtain ⟨name, f⟩ := hd
    by_cases hok : (f st).ok
    · simp only [runLoop, hok, if_true, List.map_cons, List.length_cons,
        List.take_succ_cons]
      simp [ih]
    · simp [runLoop, hok]

theorem runLoop_base_url (st : TractionTester)
    (l : List (String × (TractionTester → StepRes)))
    (h : ∀ p ∈ l, ∀ st' : TractionTester, ((p.2 st').st).base_url
      = st'.base_url) :
    (runLoop st l).final.base_url = st.base_url := by
  induction l generalizing st with
  | nil => simp [runLoop]
  | cons hd tl ih =>
    obtain ⟨name, f⟩ := hd
    by_cases hok : (f st).ok
    · simp only [runLoop, hok, if_true]
      rw [ih _ (fun p hp => h p (List.mem_cons_of_mem _ hp))]
      exact h (name, f) (List.mem_cons_self _ _) st
    · simp only [runLoop, hok, if_false]
      exact h (name, f) (List.mem_cons_self _ _) st

theorem step_4_loop_st_cases (st : TractionTester)
    (pending : List (JsonVal × Outcome)) :
    (step_4_loop st pending).st = st ∨
    ∃ d, (step_4_loop st pending).st = { st with created_did := some d } := by
  induction pending with
  | nil => left; rfl
  | cons hd tl ih =>
    obtain ⟨p, o⟩ := hd
    cases h : step_4_attempt o with
    | some d => right; exact ⟨d, by simp [step_4_loop, h]⟩
    | none => simpa [step_4_loop, h] using ih

theorem step_1_frame (st : TractionTester) (now : Nat) (o : Outcome) :
    (step_1_create_public_reservation st now o).st.base_url = st.base_url ∧
    (step_1_create_public_reservation st now o).st.debug = st.debug ∧
    (step_1_create_public_reservation st now o).st.tenant_token
      = st.tenant_token ∧
    (step_1_create_public_reservation st now o).st.created_did
      = st.created_did := by
  cases o with
  | exn => simp [step_1_create_public_reservation]
  | resp s b =>
    by_cases hs : s = 200 <;>
      cases b <;> simp [step_1_create_public_reservation, hs]

theorem step_2_frame (st : TractionTester) (o : Outcome) :
    (step_2_tenant_checkin st o).st.base_url = st.base_url ∧
    (step_2_tenant_checkin st o).st.debug = st.debug ∧
    (step_2_tenant_checkin st o).st.reservation_id = st.reservation_id ∧
    (step_2_tenant_checkin st o).st.reservation_pwd = st.reservation_pwd ∧
    (step_2_tenant_checkin st o).st.created_did = st.created_did := by
  by_cases hg : optTruthy st.reservation_id
  · cases o with
    | exn => simp [step_2_tenant_checkin, hg]
    | resp s b =>
      by_cases hs : s = 200
      · cases b with
        | none => simp [step_2_tenant_checkin, hg, hs]
        | some data =>
          by_cases ht : optTruthy (data.get "token") <;>
            simp [step_2_tenant_checkin, hg, hs, ht]
      · simp [step_2_tenant_checkin, hg, hs]
  · simp [step_2_tenant_checkin, hg]

theorem step_3_state_unchanged (st : TractionTester) (oT oS : Outcome) :
    (step_3_validate_configuration st oT oS).st = st := by
  cases oT with
  | exn => rfl
  | resp s1 b1 =>
    by_cases h1 : s1 = 200
    · cases b1 with
      | none => simp [step_3_validate_configuration, h1]
      | some bT =>
        cases oS with
        | exn => simp [step_3_validate_configuration, h1]
        | resp s2 b2 =>
          by_cases h2 : s2 = 200 <;>
            cases b2 <;> simp [step_3_validate_configuration, h1, h2]
    · simp [step_3_validate_configuration, h1]

theorem step_4_frame (st : TractionTester) (o1 o2 o3 : Outcome) :
    (step_4_create_cheqd_did st o1 o2 o3).st.base_url = st.base_url ∧
    (step_4_create_cheqd_did st o1 o2 o3).st.debug = st.debug ∧
    (step_4_create_cheqd_did st o1 o2 o3).st.tenant_token = st.tenant_token ∧
    (step_4_create_cheqd_did st o1 o2 o3).st.reservation_id
      = st.reservation_id ∧
    (step_4_create_cheqd_did st o1 o2 o3).st.reservation_pwd
      = st.reservation_pwd := by
  have h4 : (step_4_create_cheqd_did st o1 o2 o3).st
      = (step_4_loop st (payloads_to_test.zip [o1, o2, o3])).st := rfl
  rcases step_4_loop_st_cases st (payloads_to_test.zip [o1, o2, o3]) with
    h | ⟨d, h⟩
  · rw [h4, h]; exact ⟨rfl, rfl, rfl, rfl, rfl⟩
  · rw [h4, h]; exact ⟨rfl, rfl, rfl, rfl, rfl⟩

theorem step_5_state_unchanged (st : TractionTester) (oW oR : Outcome) :
    (step_5_assign_public_did st oW oR).st = st := by
  by_cases hg : optTruthy st.created_did
  · cases oW with
    | exn => simp [step_5_assign_public_did, hg]
    | resp sW bW =>
      by_cases hw : sW = 200
      · cases oR with
        | exn => simp [step_5_assign_public_did, hg, hw]
        | resp sR bR =>
          by_cases hr : sR = 200
          · cases bR with
            | none => simp [step_5_assign_public_did, hg, hw, hr]
            | some data =>
              by_cases he : (data.getD "result" (.obj .nil)).get "did"
                  = st.created_did <;>
                simp [step_5_assign_public_did, hg, hw, hr, he]
          · simp [step_5_assign_public_did, hg, hw, hr]
      · simp [step_5_assign_public_did, hg, hw]
  · simp [step_5_assign_public_did, hg]

theorem step_6_state_unchanged (st : TractionTester) (o : Outcome) :
    (step_6_validate_issuer_status st o).st = st := by
  cases o with
  | exn => rfl
  | resp s b =>
    by_cases hs : s = 200
    · cases b with
      | none => simp [step_6_validate_issuer_status, hs]
      | some data =>
        by_cases ht : optTruthy (data.get "result") <;>
          simp [step_6_validate_issuer_status, hs, ht]
    · simp [step_6_validate_issuer_status, hs]

/-- C1: the run's overall result is true iff all six steps report success in
order (the `results` record then has six entries, all true); a step's failure
stops the loop, so at most the last recorded entry is false and later steps
are never invoked (at most six entries, every non-final entry true); the
process exits with code 0 on overall success and 1 otherwise. -/
theorem C1_run_success_iff_all_steps (base_url : String) (debug : Bool)
    (now : Nat) (env : Env) :
    (main_exit base_url debug now env = 0 ↔
      (run_full_test base_url debug now env).all_passed = true) ∧
    ((run_full_test base_url debug now env).all_passed = true ↔
      (run_full_test base_url debug now env).results.length = 6 ∧
      (run_full_test base_url debug now env).results.all (fun p => p.2)
        = true) ∧
    (∀ i, i + 1 < (run_full_test base_url debug now env).results.length →
      ((run_full_test base_url debug now env).results.getD i ("", false)).2
        = true) ∧
    (run_full_test base_url debug now env).results.length ≤ 6 := by
  have hres : (run_full_test base_url debug now env).results
      = (runLoop (TractionTester.init base_url debug) (steps env now)).results
    := rfl
  have hall : (run_full_test base_url debug now env).all_passed
      = (runLoop (TractionTester.init base_url debug)
          (steps env now)).results.all (fun p => p.2) := rfl
  have hsix : (steps env now).length = 6 := rfl
  refine ⟨?_, ⟨fun h => ?_, fun h => ?_⟩, fun i hi => ?_, ?_⟩
  · unfold main_exit
    by_cases h : (run_full_test base_url debug now env).all_passed <;> simp [h]
  · rw [hall] at h
    rw [hres]
    exact ⟨(runLoop_all_length _ _ h).trans hsix, h⟩
  · rw [hall]
    rw [hres] at h
    exact h.2
  · rw [hres] at hi ⊢
    exact runLoop_init_true _ _ i hi
  · rw [hres]
    calc (runLoop (TractionTester.init base_url debug)
            (steps env now)).results.length
        ≤ (steps env now).length := runLoop_length_le _ _
      _ = 6 := hsix

/-- C1 witness: in the fully successful environment the run exits with
code 0. -/
theorem C1_run_success_iff_all_steps_witness :
    main_exit "http://localhost:8032" false 0 envGood = 0 :=
  (C1_run_success_iff_all_steps "http://localhost:8032" false 0
    envGood).1.mpr (by decide)

/-- C2 counterexample: on the fresh state, whose `tenant_token` is unset,
step 3 does not fail — it issues both of its requests and reports success
when the service answers 200.  The claim "every step whose required state
field is unset fails before issuing any network request" is therefore false
for step 3 (and the token-requiring steps in general). -/
theorem C2_counterexample :
    (TractionTester.init "http://localhost:8032" false).tenant_token
      = none ∧
    (step_3_validate_configuration
      (TractionTester.init "http://localhost:8032" false)
      (.resp 200 (some (.obj .nil))) (.resp 200 (some (.obj .nil)))).ok
      = true ∧
    (step_3_validate_configuration
      (TractionTester.init "http://localhost:8032" false)
      (.resp 200 (some (.obj .nil))) (.resp 200 (some (.obj .nil)))).reqs.length
      = 2 := by
  decide

/-- C2 (amended): only two steps guard their required state field.  Step 2
reports failure and issues no request when `reservation_id` is unset or
falsy (but performs no check of `reservation_pwd`: when `reservation_id` is
truthy it always issues its request), and step 5 reports failure and issues
no request when `created_did` is unset or falsy; steps 3, 4 and 6 perform no
precondition check and always issue at least one request, whatever the state
(when `tenant_token` is unset they simply send without an Authorization
header). -/
theorem C2_fail_fast_guards (st : TractionTester)
    (o oW oR oT oS o4a o4b o4c o6 : Outcome) :
    (optTruthy st.reservation_id = false →
      (step_2_tenant_checkin st o).ok = false ∧
      (step_2_tenant_checkin st o).reqs = []) ∧
    (optTruthy st.created_did = false →
      (step_5_assign_public_did st oW oR).ok = false ∧
      (step_5_assign_public_did st oW oR).reqs = []) ∧
    (optTruthy st.reservation_id = true →
      (step_2_tenant_checkin st o).reqs.length = 1) ∧
    (step_3_validate_configuration st oT oS).reqs ≠ [] ∧
    (step_4_create_cheqd_did st o4a o4b o4c).reqs ≠ [] ∧
    (step_6_validate_issuer_status st o6).reqs ≠ [] := by
  refine ⟨fun h => ?_, fun h => ?_, fun h => ?_, ?_, ?_, ?_⟩
  · simp [step_2_tenant_checkin, h]
  · simp [step_5_assign_public_did, h]
  · cases o with
    | exn => simp [step_2_tenant_checkin, h]
    | resp s b =>
      by_cases hs : s = 200
      · cases b with
        | none => simp [step_2_tenant_checkin, h, hs]
        | some data =>
          by_cases ht : optTruthy (data.get "token") <;>
            simp [step_2_tenant_checkin, h, hs, ht]
      · simp [step_2_tenant_checkin, h, hs]
  · cases oT with
    | exn => simp [step_3_validate_configuration]
    | resp s1 b1 =>
      by_cases h1 : s1 = 200
      · cases b1 with
        | none => simp [step_3_validate_configuration, h1]
        | some bT =>
          cases oS with
          | exn => simp [step_3_validate_configuration, h1]
          | resp s2 b2 =>
            by_cases h2 : s2 = 200 <;>
              cases b2 <;> simp [step_3_validate_configuration, h1, h2]
      · simp [step_3_validate_configuration, h1]
  · cases h4 : step_4_attempt o4a <;>
      simp [step_4_create_cheqd_did, payloads_to_test, step_4_loop, h4]
  · cases o6 with
    | exn => simp [step_6_validate_issuer_status]
    | resp s b =>
      by_cases hs : s = 200
      · cases b with
        | none => simp [step_6_validate_issuer_status, hs]
        | some data =>
          by_cases ht : optTruthy (data.get "result") <;>
            simp [step_6_validate_issuer_status, hs, ht]
      · simp [step_6_validate_issuer_status, hs]

/-- C2 (amended) witness: on the fresh state, step 2 fails without issuing a
request, and so does step 5. -/
theorem C2_fail_fast_guards_witness :
    ((step_2_tenant_checkin (TractionTester.init "http://localhost:8032"
        false) .exn).ok = false ∧
     (step_2_tenant_checkin (TractionTester.init "http://localhost:8032"
        false) .exn).reqs = []) ∧
    ((step_5_assign_public_did (TractionTester.init "http://localhost:8032"
        false) .exn .exn).ok = false ∧
     (step_5_assign_public_did (TractionTester.init "http://localhost:8032"
        false) .exn .exn).reqs = []) := by
  have h := C2_fail_fast_guards (TractionTester.init "http://localhost:8032"
    false) .exn .exn .exn .exn .exn .exn .exn .exn .exn
  exact ⟨h.1 (by decide), h.2.1 (by decide)⟩

/-- C3: step 4 tries its three request-body variants in declared order,
stops at the first variant whose response is a 200 carrying a truthy
extractable identifier (top-level `did` first, `result.did` second), stores
that identifier in `created_did`, and issues no further requests; when no
variant yields one, the step reports failure after issuing all three
requests. -/
theorem C3_step4_variant_order (st : TractionTester) (o1 o2 o3 : Outcome) :
    (∀ d1, step_4_attempt o1 = some d1 →
      step_4_create_cheqd_did st o1 o2 o3
        = ⟨true, { st with created_did := some d1 },
            [didCreateReq didPayload1]⟩) ∧
    (step_4_attempt o1 = none → ∀ d2, step_4_attempt o2 = some d2 →
      step_4_create_cheqd_did st o1 o2 o3
        = ⟨true, { st with created_did := some d2 },
            [didCreateReq didPayload1, didCreateReq didPayload2]⟩) ∧
    (step_4_attempt o1 = none → step_4_attempt o2 = none →
      ∀ d3, step_4_attempt o3 = some d3 →
      step_4_create_cheqd_did st o1 o2 o3
        = ⟨true, { st with created_did := some d3 },
            [didCreateReq didPayload1, didCreateReq didPayload2,
             didCreateReq didPayload3]⟩) ∧
    (step_4_attempt o1 = none → step_4_attempt o2 = none →
      step_4_attempt o3 = none →
      step_4_create_cheqd_did st o1 o2 o3
        = ⟨false, st,
            [didCreateReq didPayload1, didCreateReq didPayload2,
             didCreateReq didPayload3]⟩) ∧
    (∀ data : JsonVal, optTruthy (data.get "did") = true →
      extractDid data = data.get "did") ∧
    (∀ data : JsonVal, optTruthy (data.get "did") = false →
      extractDid data = (data.getD "result" (.obj .nil)).get "did") := by
  refine ⟨fun d1 h1 => ?_, fun h1 d2 h2 => ?_, fun h1 h2 d3 h3 => ?_,
    fun h1 h2 h3 => ?_, fun data h => ?_, fun data h => ?_⟩
  · simp [step_4_create_cheqd_did, payloads_to_test, step_4_loop, h1]
  · simp [step_4_create_cheqd_did, payloads_to_test, step_4_loop, h1, h2]
  · simp [step_4_create_cheqd_did, payloads_to_test, step_4_loop, h1, h2, h3]
  · simp [step_4_create_cheqd_did, payloads_to_test, step_4_loop, h1, h2, h3]
  · simp [extractDid, pyOr, h]
  · simp [extractDid, pyOr, h]

/-- C3 witness: with the first two variants answered 500 and the third
answered 200 with a top-level `did`, step 4 succeeds on the third variant
after issuing exactly the three requests in order. -/
theorem C3_step4_variant_order_witness :
    step_4_create_cheqd_did stAfterStep1 (.resp 500 none) (.resp 500 none)
        (.resp 200 (some didBody))
      = ⟨true,
          { stAfterStep1 with
              created_did := some (.str "did:cheqd:testnet:xyz") },
          [didCreateReq didPayload1, didCreateReq didPayload2,
           didCreateReq didPayload3]⟩ := by
  have h := (C3_step4_variant_order stAfterStep1 (.resp 500 none)
    (.resp 500 none) (.resp 200 (some didBody))).2.2.1
    (by decide) (by decide) (.str "did:cheqd:testnet:xyz") (by decide)
  exact h

/-- C4: in step 3, a non-200 response, an exception or an unparseable body
while fetching the tenant configuration makes the step report failure,
whereas the server-configuration fetch never does: a non-200 response, an
exception, an unparseable body, or a 200 body with no truthy cheqd plugin
configuration all leave the step reporting success. -/
theorem C4_step3_asymmetric_failure (st : TractionTester) (oS : Outcome) :
    ((step_3_validate_configuration st .exn oS).ok = false) ∧
    (∀ s b, s ≠ 200 →
      (step_3_validate_configuration st (.resp s b) oS).ok = false) ∧
    ((step_3_validate_configuration st (.resp 200 none) oS).ok = false) ∧
    (∀ bT : JsonVal,
      (step_3_validate_configuration st (.resp 200 (some bT)) oS).ok
        = true) ∧
    (∀ bT bS : JsonVal, (cheqdConfig bS).truthy = false →
      (step_3_validate_configuration st (.resp 200 (some bT))
        (.resp 200 (some bS))).ok = true) := by
  refine ⟨rfl, fun s b hs => ?_, ?_, fun bT => ?_, fun bT bS _ => ?_⟩
  · simp [step_3_validate_configuration, hs]
  · simp [step_3_validate_configuration]
  · cases oS with
    | exn => simp [step_3_validate_configuration]
    | resp s2 b2 =>
      by_cases h2 : s2 = 200 <;>
        cases b2 <;> simp [step_3_validate_configuration, h2]
  · simp [step_3_validate_configuration]

/-- C4 witness: with the tenant config answered 200 and the server config
answered 200 with an empty body (no cheqd plugin configuration), step 3
succeeds; with the tenant config answered 503, it fails. -/
theorem C4_step3_asymmetric_failure_witness :
    (step_3_validate_configuration stAfterStep1 (.resp 200 (some (.obj .nil)))
      (.resp 200 (some (.obj .nil)))).ok = true ∧
    (step_3_validate_configuration stAfterStep1 (.resp 503 none)
      (.resp 200 (some (.obj .nil)))).ok = false := by
  refine ⟨(C4_step3_asymmetric_failure stAfterStep1
    (.resp 200 (some (.obj .nil)))).2.2.2.2 (.obj .nil) (.obj .nil)
    (by decide), ?_⟩
  exact (C4_step3_asymmetric_failure stAfterStep1
    (.resp 200 (some (.obj .nil)))).2.1 503 none (by decide)

/-- C5: in step 5, when the assignment write returns 200 but the subsequent
read of the public identity observes a `result.did` different from the
stored `created_did`, the step reports failure. -/
theorem C5_read_after_write_mismatch (st : TractionTester)
    (bW : Option JsonVal) (bR : JsonVal)
    (hdid : optTruthy st.created_did = true)
    (hmismatch : (bR.getD "result" (.obj .nil)).get "did"
      ≠ st.created_did) :
    (step_5_assign_public_did st (.resp 200 bW) (.resp 200 (some bR))).ok
      = false := by
  simp [step_5_assign_public_did, hdid, hmismatch]

/-- C5 witness: with the created DID stored and the read observing a
different `result.did`, step 5 fails despite the 200 write. -/
theorem C5_read_after_write_mismatch_witness :
    (step_5_assign_public_did stWithDid (.resp 200 (some (.obj .nil)))
      (.resp 200 (some otherDidBody))).ok = false :=
  C5_read_after_write_mismatch stWithDid (some (.obj .nil)) otherDidBody
    (by decide) (by decide)

/-- C6 counterexample: step 1 returns success on an HTTP 200 response whose
body is empty — it stores `None` for both reservation fields and still
reports `True`.  The claim that a 200 body missing `reservation_id` or
`reservation_pwd` makes the step report failure is therefore false. -/
theorem C6_counterexample :
    ((JsonVal.obj .nil).get "reservation_id" = none) ∧
    ((JsonVal.obj .nil).get "reservation_pwd" = none) ∧
    (step_1_create_public_reservation
      (TractionTester.init "http://localhost:8032" false) 0
      (.resp 200 (some (.obj .nil)))).ok = true := by
  decide

/-- C6 (amended): step 1 fails on an exception, any non-200 status, or a 200
whose body fails to parse; on any parseable 200 it reports success
unconditionally, storing `data.get('reservation_id')` and
`data.get('reservation_pwd')` (each possibly unset) into the state — a
missing field is not detected until step 2's guard. -/
theorem C6_step1_status_only (st : TractionTester) (now : Nat) :
    ((step_1_create_public_reservation st now .exn).ok = false) ∧
    (∀ s b, s ≠ 200 →
      (step_1_create_public_reservation st now (.resp s b)).ok = false) ∧
    ((step_1_create_public_reservation st now (.resp 200 none)).ok
      = false) ∧
    (∀ data : JsonVal,
      (step_1_create_public_reservation st now (.resp 200 (some data))).ok
        = true ∧
      (step_1_create_public_reservation st now
        (.resp 200 (some data))).st.reservation_id
        = data.get "reservation_id" ∧
      (step_1_create_public_reservation st now
        (.resp 200 (some data))).st.reservation_pwd
        = data.get "reservation_pwd") := by
  refine ⟨rfl, fun s b hs => ?_, ?_, fun data => ?_⟩
  · simp [step_1_create_public_reservation, hs]
  · simp [step_1_create_public_reservation]
  · simp [step_1_create_public_reservation]

/-- C6 (amended) witness: a 404 fails step 1; a 200 carrying both fields
succeeds and stores them unaltered. -/
theorem C6_step1_status_only_witness :
    ((step_1_create_public_reservation
        (TractionTester.init "http://localhost:8032" false) 0
        (.resp 404 none)).ok = false) ∧
    ((step_1_create_public_reservation
        (TractionTester.init "http://localhost:8032" false) 0
        (.resp 200 (some reservationBody))).st.reservation_id
      = some (.str "res-1")) := by
  have h := C6_step1_status_only
    (TractionTester.init "http://localhost:8032" false) 0
  exact ⟨h.2.1 404 none (by decide),
    ((h.2.2.2 reservationBody).2.1).trans (by decide)⟩

/-- C7 counterexample: a 200 check-in response whose `token` field is
present but empty makes step 2 report failure, refuting the claim that any
present token is stored with the step reporting success. -/
theorem C7_counterexample :
    ((JsonVal.obj (.cons "token" (.str "") .nil)).get "token"
      = some (.str "")) ∧
    (step_2_tenant_checkin stAfterStep1
      (.resp 200 (some (.obj (.cons "token" (.str "") .nil))))).ok
      = false := by
  decide

/-- C7 (amended): on a parseable 200 check-in response, step 2 always stores
`data.get('token')` into `tenant_token`, and reports success exactly when
that token is truthy (present and non-empty); a missing, null or empty token
makes the step report failure. -/
theorem C7_step2_token_truthiness (st : TractionTester) (data : JsonVal)
    (hrid : optTruthy st.reservation_id = true) :
    (step_2_tenant_checkin st (.resp 200 (some data))).st.tenant_token
      = data.get "token" ∧
    (step_2_tenant_checkin st (.resp 200 (some data))).ok
      = optTruthy (data.get "token") := by
  by_cases ht : optTruthy (data.get "token") <;>
    simp [step_2_tenant_checkin, hrid, ht]

/-- C7 (amended) witness: a 200 response with a non-empty token stores it
and succeeds. -/
theorem C7_step2_token_truthiness_witness :
    (step_2_tenant_checkin stAfterStep1
      (.resp 200 (some tokenBody))).st.tenant_token
      = some (.str "jwt-abc") ∧
    (step_2_tenant_checkin stAfterStep1 (.resp 200 (some tokenBody))).ok
      = true := by
  have h := C7_step2_token_truthiness stAfterStep1 tokenBody (by decide)
  exact ⟨h.1.trans (by decide), h.2.trans (by decide)⟩

/-- C8: each session-state field has a single writing step — step 1 touches
only `reservation_id` and `reservation_pwd`, step 2 only `tenant_token`,
step 4 only `created_did`, and steps 3, 5 and 6 leave the state unchanged —
so no later step overwrites or clears a field set by an earlier one, and
`base_url` keeps its construction-time value through a whole run. -/
theorem C8_single_writer_per_field (st : TractionTester) (now : Nat)
    (o1 o2 oT oS o4a o4b o4c oW oR o6 : Outcome)
    (base_url : String) (debug : Bool) (env : Env) :
    ((step_1_create_public_reservation st now o1).st.base_url = st.base_url ∧
     (step_1_create_public_reservation st now o1).st.debug = st.debug ∧
     (step_1_create_public_reservation st now o1).st.tenant_token
       = st.tenant_token ∧
     (step_1_create_public_reservation st now o1).st.created_did
       = st.created_did) ∧
    ((step_2_tenant_checkin st o2).st.base_url = st.base_url ∧
     (step_2_tenant_checkin st o2).st.debug = st.debug ∧
     (step_2_tenant_checkin st o2).st.reservation_id = st.reservation_id ∧
     (step_2_tenant_checkin st o2).st.reservation_pwd
       = st.reservation_pwd ∧
     (step_2_tenant_checkin st o2).st.created_did = st.created_did) ∧
    ((step_3_validate_configuration st oT oS).st = st) ∧
    ((step_4_create_cheqd_did st o4a o4b o4c).st.base_url = st.base_url ∧
     (step_4_create_cheqd_did st o4a o4b o4c).st.debug = st.debug ∧
     (step_4_create_cheqd_did st o4a o4b o4c).st.tenant_token
       = st.tenant_token ∧
     (step_4_create_cheqd_did st o4a o4b o4c).st.reservation_id
       = st.reservation_id ∧
     (step_4_create_cheqd_did st o4a o4b o4c).st.reservation_pwd
       = st.reservation_pwd) ∧
    ((step_5_assign_public_did st oW oR).st = st) ∧
    ((step_6_validate_issuer_status st o6).st = st) ∧
    ((run_full_test base_url debug now env).final.base_url
      = rstripSlash base_url) := by
  refine ⟨step_1_frame st now o1, step_2_frame st o2,
    step_3_state_unchanged st oT oS, step_4_frame st o4a o4b o4c,
    step_5_state_unchanged st oW oR, step_6_state_unchanged st o6, ?_⟩
  have h := runLoop_base_url (TractionTester.init base_url debug)
    (steps env now) ?_
  · exact h
  · intro p hp st'
    simp only [steps, List.mem_cons, List.mem_singleton] at hp
    rcases hp with h1 | h2 | h3 | h4 | h5 | h6 | hfalse
    · rw [h1]; exact (step_1_frame st' now env.o1).1
    · rw [h2]; exact (step_2_frame st' env.o2).1
    · rw [h3]
      exact congrArg TractionTester.base_url
        (step_3_state_unchanged st' env.o3a env.o3b)
    · rw [h4]; exact (step_4_frame st' env.o4a env.o4b env.o4c).1
    · rw [h5]
      exact congrArg TractionTester.base_url
        (step_5_state_unchanged st' env.o5w env.o5r)
    · rw [h6]
      exact congrArg TractionTester.base_url
        (step_6_state_unchanged st' env.o6)
    · exact absurd hfalse (by simp)

/-- C9 counterexample: when step 1 fails, the end-of-run summary holds a
single line — the five never-executed steps have no entry at all, refuting
the claim that every one of the six steps appears in the summary. -/
theorem C9_counterexample :
    summaryLines (run_full_test "http://localhost:8032" false 0
        envAllExn).results
      = ["Create Public Reservation: FAIL"] := by
  decide

/-- C9 (amended): the end-of-run summary holds one pass/fail line per
*executed* step, in execution order — all six on a fully successful run, and
exactly steps 1..N when step N is the first failure; steps that never ran
are absent from the summary. -/
theorem C9_summary_lists_executed_steps (base_url : String) (debug : Bool)
    (now : Nat) (env : Env) :
    (summaryLines (run_full_test base_url debug now env).results).length
      = (run_full_test base_url debug now env).results.length ∧
    (run_full_test base_url debug now env).results.map Prod.fst
      = stepNames.take (run_full_test base_url debug now env).results.length ∧
    ((run_full_test base_url debug now env).all_passed = true →
      (run_full_test base_url debug now env).results.length = 6) := by
  have hres : (run_full_test base_url debug now env).results
      = (runLoop (TractionTester.init base_url debug) (steps env now)).results
    := rfl
  have hnames : (steps env now).map Prod.fst = stepNames := rfl
  refine ⟨by simp [summaryLines], ?_, fun h => ?_⟩
  · rw [hres, runLoop_names, hnames]
  · have hall : (run_full_test base_url debug now env).all_passed
        = (runLoop (TractionTester.init base_url debug)
            (steps env now)).results.all (fun p => p.2) := rfl
    rw [hall] at h
    rw [hres]
    exact (runLoop_all_length _ _ h).trans rfl

/-- C9 (amended) witness: the fully successful run's summary has six
lines. -/
theorem C9_summary_lists_executed_steps_witness :
    (run_full_test "http://localhost:8032" false 0 envGood).results.length
      = 6 :=
  (C9_summary_lists_executed_steps "http://localhost:8032" false 0
    envGood).2.2 (by decide)

/-- C10: an exception during a step-4 variant is absorbed by that variant's
attempt — the loop behaves exactly as on a failing response, still trying
the remaining variants (a later variant's success still succeeds and stores
its DID after two requests), and the step reports failure only after all
three variants were attempted (three requests issued); being a total
function of its outcomes, the step never propagates the exception. -/
theorem C10_step4_exception_absorbed (st : TractionTester)
    (o2 o3 : Outcome) :
    (step_4_attempt .exn = none) ∧
    ((step_4_create_cheqd_did st .exn o2 o3).ok
      = (step_4_create_cheqd_did st (.resp 500 none) o2 o3).ok) ∧
    ((step_4_create_cheqd_did st .exn o2 o3).reqs.length
      = (step_4_create_cheqd_did st (.resp 500 none) o2 o3).reqs.length) ∧
    ((step_4_create_cheqd_did st .exn o2 o3).ok = false →
      (step_4_create_cheqd_did st .exn o2 o3).reqs.length = 3) ∧
    (∀ d, step_4_attempt o2 = some d →
      (step_4_create_cheqd_did st .exn o2 o3).ok = true ∧
      (step_4_create_cheqd_did st .exn o2 o3).st.created_did = some d ∧
      (step_4_create_cheqd_did st .exn o2 o3).reqs.length = 2) := by
  have hexn : step_4_attempt .exn = none := rfl
  have h500 : step_4_attempt (.resp 500 none) = none := rfl
  refine ⟨hexn, ?_, ?_, ?_, fun d hd => ?_⟩
  · cases h2 : step_4_attempt o2 <;> cases h3 : step_4_attempt o3 <;>
      simp [step_4_create_cheqd_did, payloads_to_test, step_4_loop,
        hexn, h500, h2, h3]
  · cases h2 : step_4_attempt o2 <;> cases h3 : step_4_attempt o3 <;>
      simp [step_4_create_cheqd_did, payloads_to_test, step_4_loop,
        hexn, h500, h2, h3]
  · intro hfail
    cases h2 : step_4_attempt o2 with
    | some d =>
      exfalso
      have : (step_4_create_cheqd_did st .exn o2 o3).ok = true := by
        simp [step_4_create_cheqd_did, payloads_to_test, step_4_loop,
          hexn, h2]
      rw [this] at hfail
      exact Bool.noConfusion hfail
    | none =>
      cases h3 : step_4_attempt o3 with
      | some d =>
        exfalso
        have : (step_4_create_cheqd_did st .exn o2 o3).ok = true := by
          simp [step_4_create_cheqd_did, payloads_to_test, step_4_loop,
            hexn, h2, h3]
        rw [this] at hfail
        exact Bool.noConfusion hfail
      | none =>
        simp [step_4_create_cheqd_did, payloads_to_test, step_4_loop,
          hexn, h2, h3]
  · simp [step_4_create_cheqd_did, payloads_to_test, step_4_loop, hexn, hd]

/-- C10 witness: with variant 1 raising and variant 2 answering 200 with a
top-level `did`, step 4 succeeds on variant 2 after two requests. -/
theorem C10_step4_exception_absorbed_witness :
    (step_4_create_cheqd_did stAfterStep1 .exn (.resp 200 (some didBody))
      .exn).ok = true ∧
    (step_4_create_cheqd_did stAfterStep1 .exn (.resp 200 (some didBody))
      .exn).st.created_did = some (.str "did:cheqd:testnet:xyz") ∧
    (step_4_create_cheqd_did stAfterStep1 .exn (.resp 200 (some didBody))
      .exn).reqs.length = 2 :=
  (C10_step4_exception_absorbed stAfterStep1 (.resp 200 (some didBody))
    .exn).2.2.2.2 (.str "did:cheqd:testnet:xyz") (by decide)
